import Mathlib

/-!
Verification of the "Rotas Bets" navigation and discovery session manager
(`src/App.tsx`, the revision defining `searchCache` and `applyCityData`,
together with `types.ts`).

The TypeScript component state and its handlers are embedded shallowly:
React `useState` fields become fields of `AppState`; each handler becomes a
pure state-transition function; asynchronous external calls (Gemini
discovery, OSRM routing, geocoding) are passed in as explicit response
oracles (`Option`-valued: `none` models a thrown/failed call); JavaScript
numbers are modelled as exact rationals; `Date.now()` values are explicit
timestamp arguments.  `Math.atan2(dx, dy) * 180 / PI` is transcendental, so
the stored heading is kept symbolically as the pair of deltas it is derived
from, which is faithful for every claim about when the heading changes.
-/

/-- Coordinate pair, `types.ts` interface `Location`. -/
structure Location where
  lat : ℚ
  lng : ℚ
deriving DecidableEq, Repr

/-- Status of a business point, `types.ts` (`'pending' | 'success' | 'failure'`). -/
inductive Status where
  | pending
  | success
  | failure
deriving DecidableEq, Repr

/-- Point of interest, `types.ts` interface `BusinessPoint` (the `type` field of
the source interface is never written by the modelled handlers and is omitted). -/
structure BusinessPoint where
  id : String
  name : String
  lat : ℚ
  lng : ℚ
  address : Option String
  status : Status
deriving DecidableEq, Repr

/-- District, `types.ts` interface `District`. -/
structure District where
  id : String
  name : String
  description : Option String
  lat : ℚ
  lng : ℚ
  covered : Bool
  population : Option String
deriving DecidableEq, Repr

/-- Track point, `types.ts` interface `TrackingPath` (`timestamp` in epoch ms). -/
structure TrackingPath where
  timestamp : ℤ
  location : Location
deriving DecidableEq, Repr

/-- Heading shown on the car marker (`carRotation`).  The source stores
`Math.atan2(dx, dy) * 180 / PI`; the angle is transcendental, so the value is
kept as the constructor applied to the deltas it was computed from. -/
inductive Heading where
  | deg0 : Heading
  | atan2Deg (dx dy : ℚ) : Heading
deriving DecidableEq, Repr

/-- Target stored inside an active navigation, `App.tsx` line 557. -/
structure NavTarget where
  name : String
  id : Option String
  population : Option String
  ptype : Option String
  description : Option String
  lat : ℚ
  lng : ℚ
deriving DecidableEq, Repr

/-- Active navigation, `App.tsx` interface `ActiveNavigation` (lines 556-562).
The source stores `arrivalTime` as a locale-formatted clock string computed
from an epoch-ms instant; the instant itself is kept here (`arrivalMs`),
locale formatting being presentation. -/
structure ActiveNavigation where
  target : NavTarget
  distance : String
  time : String
  arrivalMs : ℚ
  geometry : List (ℚ × ℚ)
deriving DecidableEq, Repr

/-- Value of the `selectedPoint` state (a loose record in the source: either a
business, a district or the city pseudo-target built in `applyCityData`). -/
structure SelectedPoint where
  name : String
  id : Option String
  population : Option String
  ptype : Option String
  description : Option String
  lat : ℚ
  lng : ℚ
deriving DecidableEq, Repr

/-- Seed of a business point inside a parsed discovery payload
(`bars: [{name, lat, lng, address}]`). -/
structure BarSeed where
  name : String
  lat : ℚ
  lng : ℚ
  address : Option String
deriving DecidableEq, Repr

/-- Seed of a district inside a parsed discovery payload. -/
structure DistrictSeed where
  name : String
  lat : ℚ
  lng : ℚ
  description : Option String
  population : Option String
deriving DecidableEq, Repr

/-- Parsed discovery payload (`JSON.parse` result in `fetchCityData`).
Every field is optional: `none` models a missing/`undefined` field of the
parsed JavaScript object. -/
structure CityPayload where
  cityName : Option String
  cityPopulation : Option String
  bars : Option (List BarSeed)
  districts : Option (List DistrictSeed)
deriving DecidableEq, Repr

/-- Component state: the `useState` fields of `App` (lines 565-584) that the
modelled handlers read or write. -/
structure AppState where
  currentLocation : Option Location
  mapCenter : Option Location
  trackingPath : List TrackingPath
  businesses : List BusinessPoint
  districts : List District
  cityPopulation : String
  cityName : String
  isLoading : Bool
  showSuggestions : Bool
  isNavigating : Bool
  activeNavigation : Option ActiveNavigation
  selectedPoint : Option SelectedPoint
  carRotation : Heading
  followUser : Bool
deriving DecidableEq, Repr

/-- Initial coordinates (Tianguá, Ceará), `App.tsx` line 503. -/
def INITIAL_COORDS : Location := ⟨-37317 / 10000, -410004 / 10000⟩

/-- Initial component state (the `useState` initial values, lines 565-584). -/
def initialState : AppState where
  currentLocation := none
  mapCenter := some INITIAL_COORDS
  trackingPath := []
  businesses := []
  districts := []
  cityPopulation := ""
  cityName := ""
  isLoading := false
  showSuggestions := false
  isNavigating := false
  activeNavigation := none
  selectedPoint := none
  carRotation := Heading.deg0
  followUser := false

/-- Jitter threshold `0.000005` guarding heading/track updates (line 683). -/
def jitterEps : ℚ := 5 / 1000000

/-- Displacement threshold `0.00005` between recorded track points (line 689). -/
def dispEps : ℚ := 5 / 100000

/-- Guard of the displacement filter: the two locations differ by more than
`dispEps` in latitude or in longitude (line 689). -/
def farApart (p q : Location) : Bool :=
  (|p.lat - q.lat| > dispEps) || (|p.lng - q.lng| > dispEps)

/-- The `setTrackingPath` updater inside `handleLocationUpdate`
(lines 687-693): append `loc` unless the last recorded point is within the
displacement threshold. -/
def pushTrack (path : List TrackingPath) (loc : Location) (nowMs : ℤ) :
    List TrackingPath :=
  match path.getLast? with
  | none => path ++ [⟨nowMs, loc⟩]
  | some last =>
    if farApart last.location loc then path ++ [⟨nowMs, loc⟩] else path

/-- `handleLocationUpdate` (lines 679-697): on the first sample only
`currentLocation` is set; afterwards, when the jitter filter passes, the
heading is recomputed and the track updater runs.  Note the source applies
the track updater irrespective of `isNavigating`. -/
def handleLocationUpdate (st : AppState) (loc : Location) (nowMs : ℤ) :
    AppState :=
  match st.currentLocation with
  | none => { st with currentLocation := some loc }
  | some cur =>
    let dy := loc.lat - cur.lat
    let dx := loc.lng - cur.lng
    if |dy| > jitterEps ∨ |dx| > jitterEps then
      { st with
        carRotation := Heading.atan2Deg dx dy
        trackingPath := pushTrack st.trackingPath loc nowMs
        currentLocation := some loc }
    else
      { st with currentLocation := some loc }

/-- Folding a sequence of location samples (each with its `Date.now()` value)
through `handleLocationUpdate`. -/
def runUpdates (st : AppState) (us : List (Location × ℤ)) : AppState :=
  us.foldl (fun s u => handleLocationUpdate s u.1 u.2) st

/-- `toggleNavigation` (lines 629-640): stopping keeps the recorded track and
clears the active route; starting clears the track. -/
def toggleNavigation (st : AppState) : AppState :=
  if st.isNavigating then
    { st with
      isNavigating := false
      activeNavigation := none
      followUser := false }
  else
    { st with
      isNavigating := true
      trackingPath := [] }

/-- `handleStatusUpdate` (lines 699-702): overwrite the status of every
business whose id matches (the accompanying speech call is fire-and-forget
and stateless). -/
def handleStatusUpdate (st : AppState) (id : String) (status : Status) :
    AppState :=
  { st with
    businesses :=
      st.businesses.map fun b =>
        if b.id = id then { b with status := status } else b }

/-- Left-pad a digit string with zeros to `d` characters. -/
def padZeros (d : ℕ) (s : String) : String :=
  String.mk (List.replicate (d - s.length) '0') ++ s

/-- ECMAScript `Number.prototype.toFixed(d)` for a nonnegative rational:
the integer `n` closest to `x * 10^d` (ties choosing the larger `n`),
printed with `d` fractional digits. -/
def toFixedAbs (d : ℕ) (x : ℚ) : String :=
  toString ((round (x * (10 : ℚ) ^ d)).toNat / 10 ^ d) ++ "." ++
    padZeros d (toString ((round (x * (10 : ℚ) ^ d)).toNat % 10 ^ d))

/-- ECMAScript `Number.prototype.toFixed(d)`: negative inputs are formatted
as a minus sign followed by the formatting of the absolute value. -/
def toFixed (d : ℕ) (x : ℚ) : String :=
  if x < 0 then "-" ++ toFixedAbs d (-x) else toFixedAbs d x

/-- Cache key for coordinate-based discovery lookups,
`fetchCityData` line 643. -/
def quantKey (lat lng : ℚ) : String :=
  toFixed 4 lat ++ "," ++ toFixed 4 lng

/-- JavaScript `String.prototype.toLowerCase`, structurally over the
character list so that concrete keys evaluate. -/
def jsToLower (s : String) : String :=
  String.mk (s.data.map Char.toLower)

/-- JavaScript `String.prototype.trim`, structurally over the character
list. -/
def jsTrim (s : String) : String :=
  String.mk (((s.data.dropWhile Char.isWhitespace).reverse.dropWhile
    Char.isWhitespace).reverse)

/-- Cache key for geocode lookups, `performCitySearch` line 708. -/
def geoKey (query : String) : String :=
  "geo:" ++ jsToLower query

/-- Value stored in the process-wide `searchCache` (line 505): a discovery
payload under a quantized-coordinate key, or a geocode result under a
`geo:` key.  The two key spaces are disjoint (quantized keys start with a
digit or a minus sign). -/
inductive CacheVal where
  | city (p : CityPayload)
  | geo (lat lng : ℚ)
deriving DecidableEq, Repr

/-- The `searchCache` map, embedded as an association list. -/
abbrev SearchCache := List (String × CacheVal)

/-- `searchCache.get(k)` / `searchCache.has(k)`. -/
def SearchCache.get (c : SearchCache) (k : String) : Option CacheVal :=
  (c.find? fun e => e.1 == k).map fun e => e.2

/-- `searchCache.set(k, v)`. -/
def SearchCache.set (c : SearchCache) (k : String) (v : CacheVal) :
    SearchCache :=
  (k, v) :: c

/-- JavaScript `a || b` on an optional string: `undefined` and the empty
string are falsy. -/
def jsOrElse (o : Option String) (d : String) : String :=
  match o with
  | none => d
  | some s => if s = "" then d else s

/-- Reading a cached value the way `applyCityData` reads a payload: a geocode
object has no `cityName`/`bars`/`districts` fields, so every field reads as
`undefined`. -/
def CacheVal.toCity : CacheVal → CityPayload
  | CacheVal.city p => p
  | CacheVal.geo _ _ => ⟨none, none, none, none⟩

/-- Supply of id strings: the n-th result of
`Math.random().toString(36).substr(2, 9)` during one payload application.
The draws are pseudo-random and carry no uniqueness guarantee, so the
supply is an arbitrary function. -/
abbrev IdGen := ℕ → String

/-- A concrete id supply used in closed evaluations. -/
def genDefault : IdGen := fun n => toString n

/-- The `result.bars.map(...)` of `applyCityData` line 673: seed `k`-th bar
with id draw `gen (start + k)` and status `pending`. -/
def seedBusinesses (gen : IdGen) : ℕ → List BarSeed → List BusinessPoint
  | _, [] => []
  | k, b :: bs =>
    { id := gen k, name := b.name, lat := b.lat, lng := b.lng,
      address := b.address, status := Status.pending } ::
      seedBusinesses gen (k + 1) bs

/-- The `result.districts.map(...)` of `applyCityData` line 674: seed each
district with the next id draw and `covered = false`. -/
def seedDistricts (gen : IdGen) : ℕ → List DistrictSeed → List District
  | _, [] => []
  | k, d :: ds =>
    { id := gen k, name := d.name, description := d.description,
      lat := d.lat, lng := d.lng, covered := false,
      population := d.population } ::
      seedDistricts gen (k + 1) ds

/-- `applyCityData` (lines 670-677).  The source dereferences `result.bars`
and `result.districts` without a guard: a payload missing either array makes
`.map` throw a `TypeError`.  React commits the state updates queued before
the throw, so the error branch carries the partially-updated state. -/
def applyCityData (gen : IdGen) (st : AppState) (result : CityPayload)
    (lat lng : ℚ) (placeName : String) : Except AppState AppState :=
  let st1 := { st with
    cityName := jsOrElse result.cityName placeName
    cityPopulation := jsOrElse result.cityPopulation "População sob consulta" }
  match result.bars with
  | none => Except.error st1
  | some bars =>
    let st2 := { st1 with businesses := seedBusinesses gen 0 bars }
    match result.districts with
    | none => Except.error st2
    | some ds =>
      Except.ok { st2 with
        districts := seedDistricts gen bars.length ds
        selectedPoint := some
          { name := jsOrElse result.cityName placeName, id := none,
            population := result.cityPopulation, ptype := some "city",
            description := none, lat := lat, lng := lng } }

/-- State reached after `applyCityData`, whether or not it threw. -/
def applyOutcome : Except AppState AppState → AppState
  | Except.ok s => s
  | Except.error s => s

/-- Result of one `fetchCityData` run: final state, final cache, whether an
external discovery call was issued, and whether an exception escaped the
function uncaught. -/
structure FetchResult where
  state : AppState
  cache : SearchCache
  externalCall : Bool
  crashed : Bool
deriving Repr

/-- `fetchCityData` (lines 642-668).  On a cache hit the cached payload is
applied outside any `try`, so a throw in `applyCityData` escapes uncaught.
On a miss the external call is issued (`ext` is its parsed response, `none`
when the call or `JSON.parse` threw); a successful response is cached
*before* it is applied, and the `try/catch/finally` swallows an application
throw and clears the loading flag. -/
def fetchCityData (gen : IdGen) (st : AppState) (cache : SearchCache)
    (lat lng : ℚ) (placeName : String) (ext : Option CityPayload) :
    FetchResult :=
  let key := quantKey lat lng
  match cache.get key with
  | some v =>
    match applyCityData gen st v.toCity lat lng placeName with
    | Except.ok s2 => ⟨s2, cache, false, false⟩
    | Except.error s2 => ⟨s2, cache, false, true⟩
  | none =>
    let st1 := { st with isLoading := true }
    match ext with
    | none => ⟨{ st1 with isLoading := false }, cache, true, false⟩
    | some result =>
      let cache2 := cache.set key (CacheVal.city result)
      match applyCityData gen st1 result lat lng placeName with
      | Except.ok s2 => ⟨{ s2 with isLoading := false }, cache2, true, false⟩
      | Except.error s2 =>
        ⟨{ s2 with isLoading := false }, cache2, true, false⟩

/-- One parsed OSRM route (`data.routes[0]`): geometry as `[lng, lat]` pairs,
distance in meters, duration in seconds. -/
structure RoutePayload where
  coordinates : List (ℚ × ℚ)
  distance : ℚ
  duration : ℚ
deriving DecidableEq, Repr

/-- Value returned by a successful `fetchStreetRoute`. -/
structure StreetRoute where
  points : List (ℚ × ℚ)
  distance : String
  time : String
  arrivalMs : ℚ
deriving DecidableEq, Repr

/-- `fetchStreetRoute` (lines 739-758).  `resp` is the parsed first route of
the provider response (`none` models no route or a transport/parse throw);
`nowMs` is `Date.now()` at the moment the response is processed.  The
arrival instant is `nowMs + duration * 1000` and is computed here, once. -/
def fetchStreetRoute (startL endL : Location) (nowMs : ℚ)
    (resp : Option RoutePayload) : Option StreetRoute :=
  match startL, endL, resp with
  | _, _, none => none
  | _, _, some route =>
    some
      { points := route.coordinates.map fun c => (c.2, c.1)
        distance := toFixed 1 (route.distance / 1000) ++ " km"
        time := toString (round (route.duration / 60)) ++ " min"
        arrivalMs := nowMs + route.duration * 1000 }

/-- `goToLocation` (lines 760-783): with no known current location only the
map focus moves; otherwise a street route is requested and, on success,
stored in `activeNavigation` together with the precomputed arrival instant,
and tracking plus follow mode are switched on. -/
def goToLocation (st : AppState) (item : SelectedPoint) (nowMs : ℚ)
    (resp : Option RoutePayload) : AppState :=
  let st0 := { st with selectedPoint := none }
  match st0.currentLocation with
  | none => { st0 with mapCenter := some ⟨item.lat, item.lng⟩ }
  | some cur =>
    match fetchStreetRoute cur ⟨item.lat, item.lng⟩ nowMs resp with
    | none => st0
    | some sr =>
      { st0 with
        activeNavigation := some
          { target :=
              { name := item.name, id := item.id,
                population := item.population, ptype := item.ptype,
                description := item.description, lat := item.lat,
                lng := item.lng }
            distance := sr.distance
            time := sr.time
            arrivalMs := sr.arrivalMs
            geometry := sr.points }
        mapCenter := some ⟨item.lat, item.lng⟩
        isNavigating := true
        followUser := true }

/-- Response that a pending `performCitySearch` will eventually receive:
the parsed geocode result (`none` when `geo.lat`/`geo.lng` are missing,
zero — falsy in JavaScript — or the call threw) plus the response of the
nested discovery call it triggers. -/
structure SearchResponse where
  query : String
  geo : Option Location
  discovery : Option CityPayload
deriving Repr

/-- Synchronous prefix of `performCitySearch` (lines 704-718) up to the
geocode `await`.  Returns the state/cache after the prefix and whether an
external geocode request is now in flight.  On a `geo:` cache hit the whole
operation completes without that `await`: the cached coordinates are applied
and the nested `fetchCityData` runs with response oracle `ext`.  (A `city`
value under a `geo:` key cannot arise: the two key spaces are disjoint.) -/
def performCitySearchIssue (gen : IdGen) (st : AppState)
    (cache : SearchCache) (q : String) (ext : Option CityPayload) :
    (AppState × SearchCache) × Bool :=
  let query := jsTrim q
  if query = "" then ((st, cache), false)
  else
    match cache.get (geoKey query) with
    | some (CacheVal.geo glat glng) =>
      let st1 := { st with mapCenter := some ⟨glat, glng⟩ }
      let fr := fetchCityData gen st1 cache glat glng query ext
      (({ fr.state with showSuggestions := false }, fr.cache), false)
    | some (CacheVal.city _) => ((st, cache), false)
    | none =>
      (({ st with isLoading := true, showSuggestions := false }, cache), true)

/-- Continuation of `performCitySearch` after its geocode `await` resumes
(lines 726-736).  The response is applied unconditionally — the source keeps
no request sequence number, so a resuming call cannot tell whether it has
been superseded.  The nested `fetchCityData` is not awaited by the source;
this step runs it to completion, modelling the schedule in which each
search's discovery response arrives before the next event. -/
def performCitySearchResume (gen : IdGen) (st : AppState)
    (cache : SearchCache) (r : SearchResponse) : AppState × SearchCache :=
  match r.geo with
  | none => ({ st with isLoading := false }, cache)
  | some g =>
    let cache1 := cache.set (geoKey (jsTrim r.query)) (CacheVal.geo g.lat g.lng)
    let st1 := { st with mapCenter := some g }
    let fr := fetchCityData gen st1 cache1 g.lat g.lng (jsTrim r.query)
      r.discovery
    ({ fr.state with isLoading := false }, fr.cache)

/-- An event in an interleaved execution of several `performCitySearch`
calls: a user issuing a search, or the response of a previously-issued
search arriving and its continuation running. -/
inductive SearchEv where
  | issue (q : String) (ext : Option CityPayload)
  | complete (r : SearchResponse)

/-- One scheduler step. -/
def searchStep (gen : IdGen) (sc : AppState × SearchCache) (ev : SearchEv) :
    AppState × SearchCache :=
  match ev with
  | SearchEv.issue q ext => (performCitySearchIssue gen sc.1 sc.2 q ext).1
  | SearchEv.complete r => performCitySearchResume gen sc.1 sc.2 r

/-- Running a whole event trace. -/
def runSearchEvents (gen : IdGen) (init : AppState × SearchCache)
    (evs : List SearchEv) : AppState × SearchCache :=
  evs.foldl (searchStep gen) init

/-- Non-decreasing timestamps along a recorded track. -/
def timesMono : List TrackingPath → Bool
  | [] => true
  | [_] => true
  | a :: b :: rest => (a.timestamp ≤ b.timestamp) && timesMono (b :: rest)

/-- Every two consecutive recorded points differ by more than the
displacement threshold in latitude or longitude. -/
def spacedApart : List TrackingPath → Bool
  | [] => true
  | [_] => true
  | a :: b :: rest => farApart a.location b.location && spacedApart (b :: rest)

/-- The last recorded timestamp (if any) is at most `t`. -/
def lastTimeLE (path : List TrackingPath) (t : ℤ) : Bool :=
  match path.getLast? with
  | none => true
  | some p => p.timestamp ≤ t

/-- The timestamps of a sample sequence are non-decreasing and bounded below
by `t`. -/
def chainFrom (t : ℤ) : List (Location × ℤ) → Bool
  | [] => true
  | u :: rest => (t ≤ u.2) && chainFrom u.2 rest

/-- Claim C6: `startTracking` (toggling while not navigating) clears the
previously recorded track, `stopTracking` (toggling while navigating)
preserves it, and neither operation changes the businesses or districts
collections. -/
theorem C6_toggle_tracking_frame (st : AppState) :
    (toggleNavigation { st with isNavigating := false }).trackingPath = [] ∧
    (toggleNavigation { st with isNavigating := true }).trackingPath =
      st.trackingPath ∧
    (toggleNavigation st).businesses = st.businesses ∧
    (toggleNavigation st).districts = st.districts := by
  refine ⟨by simp [toggleNavigation], by simp [toggleNavigation], ?_, ?_⟩ <;>
    · cases h : st.isNavigating <;> simp [toggleNavigation, h]

/-- Claim C10: on the very first location sample (no previous current
location) `handleLocationUpdate` only sets `currentLocation`: the track and
the heading are left unchanged, whatever the tracking flag. -/
theorem C10_first_update_only_sets_location (st : AppState) (loc : Location)
    (t : ℤ) (h : st.currentLocation = none) :
    (handleLocationUpdate st loc t).currentLocation = some loc ∧
    (handleLocationUpdate st loc t).trackingPath = st.trackingPath ∧
    (handleLocationUpdate st loc t).carRotation = st.carRotation := by
  simp [handleLocationUpdate, h]

/-- Witness for C10 at the initial state with tracking enabled. -/
theorem C10_witness :
    (handleLocationUpdate { initialState with isNavigating := true }
        ⟨1, 2⟩ 7).currentLocation = some ⟨1, 2⟩ ∧
    (handleLocationUpdate { initialState with isNavigating := true }
        ⟨1, 2⟩ 7).trackingPath =
      ({ initialState with isNavigating := true } : AppState).trackingPath ∧
    (handleLocationUpdate { initialState with isNavigating := true }
        ⟨1, 2⟩ 7).carRotation =
      ({ initialState with isNavigating := true } : AppState).carRotation :=
  C10_first_update_only_sets_location
    { initialState with isNavigating := true } ⟨1, 2⟩ 7 rfl

/-- Claim C5: `handleStatusUpdate` is last-write-wins on the status of the
businesses carrying the given id, an unknown id leaves the collection
unchanged (and the total function cannot raise), and the active route, the
tracking flag and the recorded track are untouched. -/
theorem C5_report_status_last_write_wins (st : AppState) (id : String)
    (s1 s2 : Status) :
    (∀ b ∈ (handleStatusUpdate (handleStatusUpdate st id s1) id
        s2).businesses, b.id = id → b.status = s2) ∧
    ((∀ b ∈ st.businesses, b.id ≠ id) →
      (handleStatusUpdate st id s1).businesses = st.businesses) ∧
    (handleStatusUpdate st id s1).activeNavigation = st.activeNavigation ∧
    (handleStatusUpdate st id s1).isNavigating = st.isNavigating ∧
    (handleStatusUpdate st id s1).trackingPath = st.trackingPath := by
  refine ⟨?_, ?_, rfl, rfl, rfl⟩
  · intro b hb hbid
    simp only [handleStatusUpdate, List.map_map, List.mem_map,
      Function.comp] at hb
    obtain ⟨a, _, rfl⟩ := hb
    by_cases h : a.id = id
    · simp [h]
    · simp [h] at hbid
  · intro hall
    simp only [handleStatusUpdate]
    have hcongr : ∀ b ∈ st.businesses,
        (if b.id = id then { b with status := s1 } else b) = b := by
      intro b hb
      simp [hall b hb]
    calc st.businesses.map
          (fun b => if b.id = id then { b with status := s1 } else b)
        = st.businesses.map (fun b => b) :=
          List.map_congr_left hcongr
      _ = st.businesses := List.map_id' st.businesses

/-- Witness for C5: one business with id `a`, `success` then `failure`. -/
theorem C5_witness :
    (∀ b ∈ (handleStatusUpdate (handleStatusUpdate
        { initialState with businesses :=
            [⟨"a", "Bar do Zé", 1, 2, none, Status.pending⟩] }
        "a" Status.success) "a" Status.failure).businesses,
      b.id = "a" → b.status = Status.failure) ∧
    (handleStatusUpdate { initialState with businesses :=
        [⟨"a", "Bar do Zé", 1, 2, none, Status.pending⟩] }
      "a" Status.success).isNavigating =
      ({ initialState with businesses :=
          [⟨"a", "Bar do Zé", 1, 2, none, Status.pending⟩] } :
        AppState).isNavigating :=
  ⟨(C5_report_status_last_write_wins
      { initialState with businesses :=
          [⟨"a", "Bar do Zé", 1, 2, none, Status.pending⟩] }
      "a" Status.success Status.failure).1,
    (C5_report_status_last_write_wins
      { initialState with businesses :=
          [⟨"a", "Bar do Zé", 1, 2, none, Status.pending⟩] }
      "a" Status.success Status.failure).2.2.2.1⟩

/-- Counterexample to claim C7 as stated: with tracking disabled
(`isNavigating = false`) a location update still appends a track point —
the source's `handleLocationUpdate` never consults the tracking flag before
recording. -/
theorem C7_counterexample :
    ({ initialState with currentLocation := some ⟨0, 0⟩ } :
        AppState).isNavigating = false ∧
    ({ initialState with currentLocation := some ⟨0, 0⟩ } :
        AppState).trackingPath = [] ∧
    (handleLocationUpdate
        { initialState with currentLocation := some ⟨0, 0⟩ }
        ⟨1, 1⟩ 5).trackingPath = [⟨5, ⟨1, 1⟩⟩] := by
  refine ⟨rfl, rfl, ?_⟩
  norm_num [handleLocationUpdate, pushTrack, jitterEps, initialState]

/-- Claim C7 amended: `handleLocationUpdate` always updates
`currentLocation` and, being total, never fails; whenever a previous
location is known and the jitter filter passes it recomputes the heading
and runs the track recorder — but it does so regardless of the tracking
flag (the flag only controls clearing on start), so the final conjunct
shows the recorded track is flag-independent. -/
theorem C7_update_location (st : AppState) (loc : Location) (t : ℤ) :
    (handleLocationUpdate st loc t).currentLocation = some loc ∧
    (∀ cur, st.currentLocation = some cur →
      (|loc.lat - cur.lat| > jitterEps ∨ |loc.lng - cur.lng| > jitterEps) →
      (handleLocationUpdate st loc t).carRotation =
        Heading.atan2Deg (loc.lng - cur.lng) (loc.lat - cur.lat) ∧
      (handleLocationUpdate st loc t).trackingPath =
        pushTrack st.trackingPath loc t) ∧
    (handleLocationUpdate { st with isNavigating := !st.isNavigating }
        loc t).trackingPath = (handleLocationUpdate st loc t).trackingPath := by
  refine ⟨?_, ?_, ?_⟩
  · cases h : st.currentLocation <;> simp [handleLocationUpdate, h]
    split <;> simp
  · intro cur hcur hfar
    simp [handleLocationUpdate, hcur, hfar]
  · cases h : st.currentLocation <;> simp [handleLocationUpdate, h]
    split <;> simp

/-- Witness for C7 at a state with a known previous location. -/
theorem C7_witness :
    (handleLocationUpdate
        { initialState with currentLocation := some ⟨0, 0⟩ }
        ⟨1, 1⟩ 3).currentLocation = some ⟨1, 1⟩ ∧
    (handleLocationUpdate
        { initialState with currentLocation := some ⟨0, 0⟩ }
        ⟨1, 1⟩ 3).trackingPath =
      pushTrack ({ initialState with currentLocation := some ⟨0, 0⟩ } :
        AppState).trackingPath ⟨1, 1⟩ 3 :=
  ⟨(C7_update_location { initialState with currentLocation := some ⟨0, 0⟩ }
      ⟨1, 1⟩ 3).1,
    ((C7_update_location { initialState with currentLocation := some ⟨0, 0⟩ }
        ⟨1, 1⟩ 3).2.1 ⟨0, 0⟩ rfl (by norm_num [jitterEps])).2⟩

/-- A session already holding one business and one district, used to observe
what a malformed discovery application does to existing collections. -/
def stocked : AppState :=
  { initialState with
    businesses := [⟨"b0", "Old Bar", 1, 1, none, Status.pending⟩]
    districts := [⟨"d0", "Old District", none, 2, 2, false, none⟩] }

/-- A discovery payload whose parsed object lacks the `bars` and `districts`
arrays, e.g. the provider answered only city metadata. -/
def ghostPayload : CityPayload :=
  ⟨some "GhostTown", some "10 habitantes", none, none⟩

/-- Response of a first concurrent search (issued first, resolving last). -/
def respAlpha : SearchResponse :=
  ⟨"alpha", some ⟨1, 1⟩, some ⟨some "AlphaCity", some "1", some [], some []⟩⟩

/-- Response of a second concurrent search (issued last, resolving first). -/
def respBeta : SearchResponse :=
  ⟨"beta", some ⟨2, 2⟩, some ⟨some "BetaCity", some "2", some [], some []⟩⟩

/-- Track update on an empty track appends unconditionally. -/
theorem pushTrack_of_none (path : List TrackingPath) (loc : Location) (t : ℤ)
    (h : path.getLast? = none) : pushTrack path loc t = path ++ [⟨t, loc⟩] := by
  simp [pushTrack, h]

/-- Track update appends when the displacement filter passes. -/
theorem pushTrack_of_far (path : List TrackingPath) (loc : Location) (t : ℤ)
    (last : TrackingPath) (h : path.getLast? = some last)
    (hf : farApart last.location loc = true) :
    pushTrack path loc t = path ++ [⟨t, loc⟩] := by
  simp [pushTrack, h, hf]

/-- Track update is a no-op when the displacement filter fails. -/
theorem pushTrack_of_near (path : List TrackingPath) (loc : Location) (t : ℤ)
    (last : TrackingPath) (h : path.getLast? = some last)
    (hf : farApart last.location loc = false) :
    pushTrack path loc t = path := by
  simp [pushTrack, h, hf]

/-- The track updater only ever appends. -/
theorem pushTrack_exists_tail (path : List TrackingPath) (loc : Location)
    (t : ℤ) : ∃ tail, pushTrack path loc t = path ++ tail := by
  cases hL : path.getLast? with
  | none => exact ⟨[⟨t, loc⟩], pushTrack_of_none path loc t hL⟩
  | some last =>
    cases hf : farApart last.location loc with
    | true => exact ⟨[⟨t, loc⟩], pushTrack_of_far path loc t last hL hf⟩
    | false =>
      exact ⟨[], by rw [pushTrack_of_near path loc t last hL hf,
        List.append_nil]⟩

/-- Appending a point stamped no earlier than the current last point keeps
timestamps non-decreasing. -/
theorem timesMono_append_last :
    ∀ (path : List TrackingPath) (x : TrackingPath),
      timesMono path = true → lastTimeLE path x.timestamp = true →
      timesMono (path ++ [x]) = true
  | [], x, _, _ => by simp [timesMono]
  | [a], x, _, h2 => by
    simp only [lastTimeLE, List.getLast?_singleton] at h2
    simpa [timesMono] using h2
  | a :: b :: r, x, h1, h2 => by
    simp only [timesMono, Bool.and_eq_true, decide_eq_true_eq] at h1
    have ih := timesMono_append_last (b :: r) x h1.2
      (by simpa [lastTimeLE, List.getLast?_cons_cons] using h2)
    simp only [List.cons_append, timesMono, Bool.and_eq_true,
      decide_eq_true_eq] at ih ⊢
    exact ⟨h1.1, by simpa using ih⟩

/-- Appending a point that clears the displacement filter with respect to
the current last point keeps consecutive points spaced apart. -/
theorem spacedApart_append_last :
    ∀ (path : List TrackingPath) (x : TrackingPath),
      spacedApart path = true →
      (∀ p, path.getLast? = some p → farApart p.location x.location = true) →
      spacedApart (path ++ [x]) = true
  | [], x, _, _ => by simp [spacedApart]
  | [a], x, _, h2 => by
    have := h2 a (List.getLast?_singleton a)
    simpa [spacedApart] using this
  | a :: b :: r, x, h1, h2 => by
    simp only [spacedApart, Bool.and_eq_true] at h1
    have ih := spacedApart_append_last (b :: r) x h1.2
      (fun p hp => h2 p (by rwa [List.getLast?_cons_cons]))
    simp only [List.cons_append, spacedApart, Bool.and_eq_true] at ih ⊢
    exact ⟨h1.1, by simpa using ih⟩

/-- A bound on the last timestamp is monotone in the bound. -/
theorem lastTimeLE_mono (path : List TrackingPath) (a b : ℤ) (hab : a ≤ b)
    (h : lastTimeLE path a = true) : lastTimeLE path b = true := by
  unfold lastTimeLE at h ⊢
  cases hL : path.getLast? with
  | none => simp
  | some p =>
    rw [hL] at h
    simp only [decide_eq_true_eq] at h ⊢
    exact le_trans h hab

/-- Track update preserves non-decreasing timestamps when the new stamp is
no earlier than the last recorded one. -/
theorem pushTrack_timesMono (path : List TrackingPath) (loc : Location)
    (t : ℤ) (h1 : timesMono path = true) (h2 : lastTimeLE path t = true) :
    timesMono (pushTrack path loc t) = true := by
  cases hL : path.getLast? with
  | none =>
    rw [pushTrack_of_none path loc t hL]
    exact timesMono_append_last path ⟨t, loc⟩ h1 h2
  | some last =>
    cases hf : farApart last.location loc with
    | true =>
      rw [pushTrack_of_far path loc t last hL hf]
      exact timesMono_append_last path ⟨t, loc⟩ h1 h2
    | false =>
      rw [pushTrack_of_near path loc t last hL hf]
      exact h1

/-- Track update preserves the spacing invariant: the displacement filter is
exactly the guard of the append. -/
theorem pushTrack_spacedApart (path : List TrackingPath) (loc : Location)
    (t : ℤ) (h1 : spacedApart path = true) :
    spacedApart (pushTrack path loc t) = true := by
  cases hL : path.getLast? with
  | none =>
    rw [pushTrack_of_none path loc t hL]
    refine spacedApart_append_last path ⟨t, loc⟩ h1 ?_
    intro p hp
    rw [hL] at hp
    cases hp
  | some last =>
    cases hf : farApart last.location loc with
    | true =>
      rw [pushTrack_of_far path loc t last hL hf]
      refine spacedApart_append_last path ⟨t, loc⟩ h1 ?_
      intro p hp
      rw [hL] at hp
      cases hp
      exact hf
    | false =>
      rw [pushTrack_of_near path loc t last hL hf]
      exact h1

/-- Track update keeps the last timestamp bounded by any `t' ≥ t`. -/
theorem pushTrack_lastTimeLE (path : List TrackingPath) (loc : Location)
    (t t' : ℤ) (hle : t ≤ t') (h : lastTimeLE path t = true) :
    lastTimeLE (pushTrack path loc t) t' = true := by
  cases hL : path.getLast? with
  | none =>
    rw [pushTrack_of_none path loc t hL]
    simp [lastTimeLE, List.getLast?_concat, hle]
  | some last =>
    cases hf : farApart last.location loc with
    | true =>
      rw [pushTrack_of_far path loc t last hL hf]
      simp [lastTimeLE, List.getLast?_concat, hle]
    | false =>
      rw [pushTrack_of_near path loc t last hL hf]
      exact lastTimeLE_mono path t t' hle h

/-- A location update either runs the track updater or leaves the
track alone. -/
theorem handleLocationUpdate_path_cases (st : AppState) (loc : Location)
    (t : ℤ) :
    (handleLocationUpdate st loc t).trackingPath =
      pushTrack st.trackingPath loc t ∨
    (handleLocationUpdate st loc t).trackingPath = st.trackingPath := by
  unfold handleLocationUpdate
  cases st.currentLocation <;> simp
  split <;> simp

/-- Unfolding one step of `runUpdates`. -/
theorem runUpdates_cons (st : AppState) (loc : Location) (t : ℤ)
    (us : List (Location × ℤ)) :
    runUpdates st ((loc, t) :: us) =
      runUpdates (handleLocationUpdate st loc t) us :=
  rfl

/-- Any sample sequence with non-decreasing timestamps starting from a
state whose track satisfies the invariants yields a track that still
satisfies them, extending the old track by a (possibly empty) suffix. -/
theorem runUpdates_track_invariant :
    ∀ (us : List (Location × ℤ)) (st : AppState) (t0 : ℤ),
      timesMono st.trackingPath = true →
      spacedApart st.trackingPath = true →
      lastTimeLE st.trackingPath t0 = true →
      chainFrom t0 us = true →
      timesMono (runUpdates st us).trackingPath = true ∧
      spacedApart (runUpdates st us).trackingPath = true ∧
      ∃ tail, (runUpdates st us).trackingPath = st.trackingPath ++ tail
  | [], st, t0, h1, h2, _, _ => ⟨h1, h2, ⟨[], by simp [runUpdates]⟩⟩
  | (loc, t) :: rest, st, t0, h1, h2, h3, h4 => by
    rw [runUpdates_cons]
    simp only [chainFrom, Bool.and_eq_true, decide_eq_true_eq] at h4
    have h3t : lastTimeLE st.trackingPath t = true :=
      lastTimeLE_mono st.trackingPath t0 t h4.1 h3
    rcases handleLocationUpdate_path_cases st loc t with hp | hp
    · have ih := runUpdates_track_invariant rest
        (handleLocationUpdate st loc t) t
        (by rw [hp]; exact pushTrack_timesMono st.trackingPath loc t h1 h3t)
        (by rw [hp]; exact pushTrack_spacedApart st.trackingPath loc t h2)
        (by rw [hp]; exact pushTrack_lastTimeLE st.trackingPath loc t t le_rfl h3t)
        h4.2
      refine ⟨ih.1, ih.2.1, ?_⟩
      obtain ⟨tail2, htail2⟩ := ih.2.2
      obtain ⟨tail1, htail1⟩ := pushTrack_exists_tail st.trackingPath loc t
      exact ⟨tail1 ++ tail2,
        by rw [htail2, hp, htail1, List.append_assoc]⟩
    · have ih := runUpdates_track_invariant rest
        (handleLocationUpdate st loc t) t
        (by rw [hp]; exact h1) (by rw [hp]; exact h2)
        (by rw [hp]; exact h3t) h4.2
      refine ⟨ih.1, ih.2.1, ?_⟩
      obtain ⟨tail2, htail2⟩ := ih.2.2
      exact ⟨tail2, by rw [htail2, hp]⟩

/-- Counterexample to claim C3 as stated: from a fresh session with tracking
enabled, two updates differing by less than the displacement threshold (here
two identical samples) append zero track points, not exactly one — the first
sample of a session never appends, and the second fails the jitter filter. -/
theorem C3_counterexample :
    ({ initialState with isNavigating := true } : AppState).isNavigating =
      true ∧
    (runUpdates { initialState with isNavigating := true }
      [(⟨0, 0⟩, 1), (⟨0, 0⟩, 2)]).trackingPath = [] := by
  refine ⟨rfl, ?_⟩
  norm_num [runUpdates, handleLocationUpdate, initialState, jitterEps]

/-- Claim C3 amended: over any update sequence with non-decreasing
timestamps the recorded track has non-decreasing timestamps, consecutive
recorded coordinates differing by more than the displacement threshold, and
is append-only; and two updates differing by less than the threshold append
exactly one point (the first of the two) when a previous location is known,
the track is empty and the first update clears the jitter filter. -/
theorem C3_track_invariants :
    (∀ (st : AppState) (us : List (Location × ℤ)) (t0 : ℤ),
      timesMono st.trackingPath = true →
      spacedApart st.trackingPath = true →
      lastTimeLE st.trackingPath t0 = true →
      chainFrom t0 us = true →
      timesMono (runUpdates st us).trackingPath = true ∧
      spacedApart (runUpdates st us).trackingPath = true ∧
      ∃ tail, (runUpdates st us).trackingPath = st.trackingPath ++ tail) ∧
    (∀ (st : AppState) (c u1 u2 : Location) (t1 t2 : ℤ),
      st.currentLocation = some c → st.trackingPath = [] →
      (|u1.lat - c.lat| > jitterEps ∨ |u1.lng - c.lng| > jitterEps) →
      |u2.lat - u1.lat| < dispEps → |u2.lng - u1.lng| < dispEps →
      (runUpdates st [(u1, t1), (u2, t2)]).trackingPath = [⟨t1, u1⟩]) := by
  refine ⟨fun st us t0 h1 h2 h3 h4 =>
    runUpdates_track_invariant us st t0 h1 h2 h3 h4, ?_⟩
  intro st c u1 u2 t1 t2 hc hpath hfar1 hlt1 hlt2
  have hfarApart : farApart u1 u2 = false := by
    unfold farApart
    simp only [Bool.or_eq_false_iff, decide_eq_false_iff_not, not_lt]
    exact ⟨by rw [abs_sub_comm]; exact le_of_lt hlt1,
      by rw [abs_sub_comm]; exact le_of_lt hlt2⟩
  have h1 : handleLocationUpdate st u1 t1 =
      { st with
        carRotation := Heading.atan2Deg (u1.lng - c.lng) (u1.lat - c.lat)
        trackingPath := [⟨t1, u1⟩]
        currentLocation := some u1 } := by
    have hpush : pushTrack st.trackingPath u1 t1 = [⟨t1, u1⟩] := by
      rw [hpath]
      rfl
    simp [handleLocationUpdate, hc, hfar1, hpush]
  rw [show runUpdates st [(u1, t1), (u2, t2)] =
    handleLocationUpdate (handleLocationUpdate st u1 t1) u2 t2 from rfl, h1]
  by_cases hj : |u2.lat - u1.lat| > jitterEps ∨ |u2.lng - u1.lng| > jitterEps
  · have hpush2 : pushTrack [⟨t1, u1⟩] u2 t2 = [⟨t1, u1⟩] :=
      pushTrack_of_near [⟨t1, u1⟩] u2 t2 ⟨t1, u1⟩ rfl hfarApart
    simp [handleLocationUpdate, hj, hpush2]
  · simp [handleLocationUpdate, hj]

/-- Witness for C3 at concrete sample sequences. -/
theorem C3_witness :
    (∃ tail, (runUpdates initialState [(⟨1, 1⟩, 5)]).trackingPath =
      initialState.trackingPath ++ tail) ∧
    (runUpdates { initialState with currentLocation := some ⟨0, 0⟩ }
      [(⟨1, 1⟩, 1), (⟨1, 1⟩, 2)]).trackingPath = [⟨1, ⟨1, 1⟩⟩] :=
  ⟨(C3_track_invariants.1 initialState [(⟨1, 1⟩, 5)] 0 rfl rfl rfl
      (by decide)).2.2,
    C3_track_invariants.2 { initialState with currentLocation := some ⟨0, 0⟩ }
      ⟨0, 0⟩ ⟨1, 1⟩ ⟨1, 1⟩ 1 2 rfl rfl (by norm_num [jitterEps])
      (by norm_num [dispEps]) (by norm_num [dispEps])⟩

/-- Seeding preserves the number of bars. -/
theorem seedBusinesses_length (gen : IdGen) :
    ∀ (k : ℕ) (bs : List BarSeed),
      (seedBusinesses gen k bs).length = bs.length
  | _, [] => rfl
  | k, _ :: bs => by
    simp [seedBusinesses, seedBusinesses_length gen (k + 1) bs]

/-- Every seeded business starts `pending`. -/
theorem seedBusinesses_status (gen : IdGen) :
    ∀ (k : ℕ) (bs : List BarSeed),
      ∀ b ∈ seedBusinesses gen k bs, b.status = Status.pending
  | _, [], b, hb => by cases hb
  | k, _ :: bs, b, hb => by
    rcases (by simpa [seedBusinesses] using hb :
        b = _ ∨ b ∈ seedBusinesses gen (k + 1) bs) with rfl | hmem
    · rfl
    · exact seedBusinesses_status gen (k + 1) bs b hmem

/-- The ids of the seeded businesses are the id draws `k, k+1, …` in order. -/
theorem seedBusinesses_ids (gen : IdGen) :
    ∀ (k : ℕ) (bs : List BarSeed),
      (seedBusinesses gen k bs).map BusinessPoint.id =
        (List.range' k bs.length).map gen
  | _, [] => rfl
  | k, _ :: bs => by
    simp [seedBusinesses, List.range', seedBusinesses_ids gen (k + 1) bs]

/-- Seeding preserves the number of districts. -/
theorem seedDistricts_length (gen : IdGen) :
    ∀ (k : ℕ) (ds : List DistrictSeed),
      (seedDistricts gen k ds).length = ds.length
  | _, [] => rfl
  | k, _ :: ds => by
    simp [seedDistricts, seedDistricts_length gen (k + 1) ds]

/-- Every seeded district starts uncovered. -/
theorem seedDistricts_covered (gen : IdGen) :
    ∀ (k : ℕ) (ds : List DistrictSeed),
      ∀ d ∈ seedDistricts gen k ds, d.covered = false
  | _, [], d, hd => by cases hd
  | k, _ :: ds, d, hd => by
    rcases (by simpa [seedDistricts] using hd :
        d = _ ∨ d ∈ seedDistricts gen (k + 1) ds) with rfl | hmem
    · rfl
    · exact seedDistricts_covered gen (k + 1) ds d hmem

/-- The ids of the seeded districts are the subsequent id draws in order. -/
theorem seedDistricts_ids (gen : IdGen) :
    ∀ (k : ℕ) (ds : List DistrictSeed),
      (seedDistricts gen k ds).map District.id =
        (List.range' k ds.length).map gen
  | _, [] => rfl
  | k, _ :: ds => by
    simp [seedDistricts, List.range', seedDistricts_ids gen (k + 1) ds]

/-- Counterexample to the uniqueness part of claim C4 as stated: the ids come
from `Math.random().toString(36).substr(2, 9)`, which can repeat a value; if
the first two draws coincide the two seeded businesses share an id. -/
theorem C4_counterexample :
    (∃ s, applyCityData (fun _ => "dup") initialState
        ⟨some "X", some "Y",
          some [⟨"b1", 1, 1, none⟩, ⟨"b2", 2, 2, none⟩], some []⟩
        0 0 "pl" = Except.ok s) ∧
    ¬ (((applyOutcome (applyCityData (fun _ => "dup") initialState
        ⟨some "X", some "Y",
          some [⟨"b1", 1, 1, none⟩, ⟨"b2", 2, 2, none⟩], some []⟩
        0 0 "pl")).businesses.map BusinessPoint.id).Nodup) := by
  constructor
  · exact ⟨_, rfl⟩
  · simp [applyCityData, applyOutcome, seedBusinesses, jsOrElse]

/-- Claim C4 amended: applying a payload with `N` bars and `M` districts
succeeds and replaces the collections with exactly `N` businesses, all
`pending`, and `M` districts, all uncovered; the assigned ids are unique
within the session provided the `N + M` underlying random id draws are
pairwise distinct. -/
theorem C4_apply_discovery (gen : IdGen) (st : AppState) (p : CityPayload)
    (bs : List BarSeed) (ds : List DistrictSeed) (lat lng : ℚ) (nm : String)
    (hb : p.bars = some bs) (hd : p.districts = some ds) :
    ∃ st2, applyCityData gen st p lat lng nm = Except.ok st2 ∧
      st2.businesses.length = bs.length ∧
      st2.districts.length = ds.length ∧
      (∀ b ∈ st2.businesses, b.status = Status.pending) ∧
      (∀ d ∈ st2.districts, d.covered = false) ∧
      ((∀ i j, i < bs.length + ds.length → j < bs.length + ds.length →
          gen i = gen j → i = j) →
        ((st2.businesses.map BusinessPoint.id) ++
          (st2.districts.map District.id)).Nodup) := by
  refine ⟨_, by rw [applyCityData, hb, hd], ?_, ?_, ?_, ?_, ?_⟩
  · exact seedBusinesses_length gen 0 bs
  · exact seedDistricts_length gen bs.length ds
  · exact seedBusinesses_status gen 0 bs
  · exact seedDistricts_covered gen bs.length ds
  · intro hinj
    rw [seedBusinesses_ids gen 0 bs, seedDistricts_ids gen bs.length ds,
      ← List.map_append]
    have hsplit : List.range' 0 bs.length ++ List.range' bs.length ds.length =
        List.range' 0 (bs.length + ds.length) := by
      have h := List.range'_append_1 0 bs.length ds.length
      simpa [Nat.add_comm] using h
    rw [hsplit]
    refine List.Nodup.map_on ?_ (List.nodup_range' _ _)
    intro x hx y hy hxy
    rw [List.mem_range'_1] at hx hy
    exact hinj x y (by simpa using hx.2) (by simpa using hy.2) hxy

/-- Witness for C4: a payload with two bars and one district, injective id
supply. -/
theorem C4_witness :
    ∃ st2, applyCityData genDefault initialState
        ⟨some "X", some "Y",
          some [⟨"b1", 1, 1, none⟩, ⟨"b2", 2, 2, none⟩],
          some [⟨"d1", 3, 3, none, none⟩]⟩ 0 0 "pl" = Except.ok st2 ∧
      st2.businesses.length = 2 ∧
      st2.districts.length = 1 ∧
      (∀ b ∈ st2.businesses, b.status = Status.pending) ∧
      (∀ d ∈ st2.districts, d.covered = false) ∧
      ((st2.businesses.map BusinessPoint.id) ++
        (st2.districts.map District.id)).Nodup := by
  obtain ⟨st2, h1, h2, h3, h4, h5, h6⟩ :=
    C4_apply_discovery genDefault initialState
      ⟨some "X", some "Y",
        some [⟨"b1", 1, 1, none⟩, ⟨"b2", 2, 2, none⟩],
        some [⟨"d1", 3, 3, none, none⟩]⟩
      [⟨"b1", 1, 1, none⟩, ⟨"b2", 2, 2, none⟩]
      [⟨"d1", 3, 3, none, none⟩] 0 0 "pl" rfl rfl
  refine ⟨st2, h1, h2, h3, h4, h5, h6 ?_⟩
  intro i j hi hj hg
  simp only [List.length_cons, List.length_nil] at hi hj
  interval_cases i <;> interval_cases j <;> revert hg <;> decide

/-- Lookup after store on the same key. -/
theorem SearchCache.get_set_self (c : SearchCache) (k : String)
    (v : CacheVal) : (c.set k v).get k = some v := by
  simp [SearchCache.get, SearchCache.set, List.find?]

/-- A fresh `fetchCityData` that receives a payload caches it under the
quantized key, whatever `applyCityData` then does. -/
theorem fetchCityData_fresh_cache (gen : IdGen) (st : AppState)
    (cache : SearchCache) (lat lng : ℚ) (nm : String) (p : CityPayload)
    (hmiss : cache.get (quantKey lat lng) = none) :
    (fetchCityData gen st cache lat lng nm (some p)).cache =
      cache.set (quantKey lat lng) (CacheVal.city p) ∧
    (fetchCityData gen st cache lat lng nm (some p)).externalCall = true := by
  simp only [fetchCityData, hmiss]
  cases h : applyCityData gen { st with isLoading := true } p lat lng nm <;>
    simp [h]

/-- A `fetchCityData` whose quantized key is cached applies the cached
payload, issues no external call and leaves the cache unchanged. -/
theorem fetchCityData_hit (gen : IdGen) (st : AppState)
    (cache : SearchCache) (lat lng : ℚ) (nm : String) (p : CityPayload)
    (ext : Option CityPayload)
    (hhit : cache.get (quantKey lat lng) = some (CacheVal.city p)) :
    (fetchCityData gen st cache lat lng nm ext).externalCall = false ∧
    (fetchCityData gen st cache lat lng nm ext).state =
      applyOutcome (applyCityData gen st p lat lng nm) ∧
    (fetchCityData gen st cache lat lng nm ext).cache = cache := by
  simp only [fetchCityData, hhit]
  cases h : applyCityData gen st (CacheVal.city p).toCity lat lng nm <;>
    simp [CacheVal.toCity, h] <;>
    simpa [CacheVal.toCity] using congrArg applyOutcome h.symm

/-- Claim C1: for two `fetchCityData` invocations whose coordinates quantize
to the same 4-decimal cache key, the first successful call stores the raw
payload under that key and issues the one external call; the second
invocation, whatever its own oracle would answer, issues no external call
and computes its state from the cached raw payload, leaving the cache
unchanged. -/
theorem C1_quantized_cache_single_call (gen gen2 : IdGen)
    (st st2 : AppState) (cache : SearchCache) (lat1 lng1 lat2 lng2 : ℚ)
    (n1 n2 : String) (p : CityPayload)
    (hkey : quantKey lat2 lng2 = quantKey lat1 lng1)
    (hmiss : cache.get (quantKey lat1 lng1) = none) :
    (fetchCityData gen st cache lat1 lng1 n1 (some p)).externalCall = true ∧
    (fetchCityData gen st cache lat1 lng1 n1 (some p)).cache.get
      (quantKey lat2 lng2) = some (CacheVal.city p) ∧
    ∀ ext,
      (fetchCityData gen2 st2
        (fetchCityData gen st cache lat1 lng1 n1 (some p)).cache
        lat2 lng2 n2 ext).externalCall = false ∧
      (fetchCityData gen2 st2
        (fetchCityData gen st cache lat1 lng1 n1 (some p)).cache
        lat2 lng2 n2 ext).state =
        applyOutcome (applyCityData gen2 st2 p lat2 lng2 n2) ∧
      (fetchCityData gen2 st2
        (fetchCityData gen st cache lat1 lng1 n1 (some p)).cache
        lat2 lng2 n2 ext).cache =
        (fetchCityData gen st cache lat1 lng1 n1 (some p)).cache := by
  obtain ⟨hcache, hext⟩ :=
    fetchCityData_fresh_cache gen st cache lat1 lng1 n1 p hmiss
  have hhit : (fetchCityData gen st cache lat1 lng1 n1
      (some p)).cache.get (quantKey lat2 lng2) = some (CacheVal.city p) := by
    rw [hcache, hkey]
    exact SearchCache.get_set_self cache (quantKey lat1 lng1)
      (CacheVal.city p)
  refine ⟨hext, hhit, fun ext => ?_⟩
  exact fetchCityData_hit gen2 st2 _ lat2 lng2 n2 p ext hhit

/-- Witness for C1: empty cache, identical coordinates, a tiny payload. -/
theorem C1_witness :
    (fetchCityData genDefault initialState [] 1 1 "q"
      (some ⟨some "W", some "1", some [], some []⟩)).externalCall = true ∧
    (fetchCityData genDefault initialState
      (fetchCityData genDefault initialState [] 1 1 "q"
        (some ⟨some "W", some "1", some [], some []⟩)).cache
      1 1 "q2" none).externalCall = false ∧
    (fetchCityData genDefault initialState
      (fetchCityData genDefault initialState [] 1 1 "q"
        (some ⟨some "W", some "1", some [], some []⟩)).cache
      1 1 "q2" none).state =
      applyOutcome (applyCityData genDefault initialState
        ⟨some "W", some "1", some [], some []⟩ 1 1 "q2") := by
  obtain ⟨h1, _, h3⟩ :=
    C1_quantized_cache_single_call genDefault genDefault initialState
      initialState [] 1 1 1 1 "q" "q2"
      ⟨some "W", some "1", some [], some []⟩ rfl rfl
  exact ⟨h1, (h3 none).1, (h3 none).2.1⟩

/-- On a cache hit whose cached payload makes `applyCityData` throw, the
exception escapes `fetchCityData` uncaught. -/
theorem fetchCityData_hit_crash (gen : IdGen) (st : AppState)
    (cache : SearchCache) (lat lng : ℚ) (nm : String)
    (ext : Option CityPayload) (p : CityPayload)
    (hhit : cache.get (quantKey lat lng) = some (CacheVal.city p))
    (herr : ∃ s, applyCityData gen st p lat lng nm = Except.error s) :
    (fetchCityData gen st cache lat lng nm ext).crashed = true := by
  obtain ⟨s, hs⟩ := herr
  simp [fetchCityData, hhit, CacheVal.toCity, hs]

/-- Claim C9 evaluated at the failing input (code bug): a payload missing the
`bars`/`districts` arrays does not degrade to empty collections.  On the
fresh-fetch path the `TypeError` thrown by `result.bars.map` is swallowed by
the `catch`, but only after the malformed payload was stored in the cache,
and the session keeps its previous collections while `cityName` is already
partially updated.  On the subsequent cache-hit path for the same quantized
key the cached payload is applied outside any `try`, so the `TypeError`
escapes uncaught. -/
theorem C9_malformed_payload_not_degraded :
    (fetchCityData genDefault stocked [] 1 2 "pl"
      (some ghostPayload)).crashed = false ∧
    (fetchCityData genDefault stocked [] 1 2 "pl"
      (some ghostPayload)).externalCall = true ∧
    (fetchCityData genDefault stocked [] 1 2 "pl"
      (some ghostPayload)).cache.get (quantKey 1 2) =
      some (CacheVal.city ghostPayload) ∧
    (fetchCityData genDefault stocked [] 1 2 "pl"
      (some ghostPayload)).state.businesses = stocked.businesses ∧
    (fetchCityData genDefault stocked [] 1 2 "pl"
      (some ghostPayload)).state.districts = stocked.districts ∧
    (fetchCityData genDefault stocked [] 1 2 "pl"
      (some ghostPayload)).state.cityName = "GhostTown" ∧
    (fetchCityData genDefault stocked
      (fetchCityData genDefault stocked [] 1 2 "pl"
        (some ghostPayload)).cache 1 2 "pl" none).crashed = true ∧
    (fetchCityData genDefault stocked
      (fetchCityData genDefault stocked [] 1 2 "pl"
        (some ghostPayload)).cache 1 2 "pl" none).state.businesses =
      stocked.businesses ∧
    stocked.businesses ≠ [] := by
  have hfresh := fetchCityData_fresh_cache genDefault stocked [] 1 2 "pl"
    ghostPayload rfl
  have hhit : (fetchCityData genDefault stocked [] 1 2 "pl"
      (some ghostPayload)).cache.get (quantKey 1 2) =
      some (CacheVal.city ghostPayload) := by
    rw [hfresh.1]
    exact SearchCache.get_set_self [] (quantKey 1 2)
      (CacheVal.city ghostPayload)
  have hthe := fetchCityData_hit genDefault stocked _ 1 2 "pl" ghostPayload
    none hhit
  refine ⟨rfl, rfl, hhit, rfl, rfl, rfl, ?_, ?_, List.cons_ne_nil _ _⟩
  · exact fetchCityData_hit_crash genDefault stocked _ 1 2 "pl" none
      ghostPayload hhit ⟨_, rfl⟩
  · rw [hthe.2.1]
    rfl

/-- Claim C2 evaluated at the failing trace (code bug): searches `alpha`
(issued first) and `beta` (issued second) overlap; `beta`'s response
arrives first and lands in session state, then `alpha`'s late response
arrives and — with no request-sequence guard anywhere in
`performCitySearch` — overwrites it.  The final state reflects the stale
first-issued search, not the most recently issued one. -/
theorem C2_stale_response_overwrites :
    (runSearchEvents genDefault (initialState, [])
      [SearchEv.issue "alpha" none, SearchEv.issue "beta" none,
        SearchEv.complete respBeta]).1.cityName = "BetaCity" ∧
    (runSearchEvents genDefault (initialState, [])
      [SearchEv.issue "alpha" none, SearchEv.issue "beta" none,
        SearchEv.complete respBeta,
        SearchEv.complete respAlpha]).1.cityName = "AlphaCity" ∧
    (runSearchEvents genDefault (initialState, [])
      [SearchEv.issue "alpha" none, SearchEv.issue "beta" none,
        SearchEv.complete respBeta,
        SearchEv.complete respAlpha]).1.mapCenter = some ⟨1, 1⟩ := by
  refine ⟨?_, ?_, ?_⟩ <;> with_unfolding_all rfl

/-- Claim C8: a successful route response with distance `d` meters and
duration `s` seconds yields `distanceText = toFixed 1 (d / 1000) ++ " km"`,
`durationText = round (s / 60) ++ " min"`, and an arrival instant equal to
the clock time at the moment of the response plus `s` seconds; and
`goToLocation` stores exactly these values in the active navigation, where
they are never recomputed. -/
theorem C8_route_formatting (startL endL : Location) (nowMs : ℚ)
    (resp : RoutePayload) :
    fetchStreetRoute startL endL nowMs (some resp) =
      some { points := resp.coordinates.map fun c => (c.2, c.1)
             distance := toFixed 1 (resp.distance / 1000) ++ " km"
             time := toString (round (resp.duration / 60)) ++ " min"
             arrivalMs := nowMs + resp.duration * 1000 } ∧
    (∀ (st : AppState) (item : SelectedPoint) (cur : Location),
      st.currentLocation = some cur →
      ∃ nav, (goToLocation st item nowMs
          (some resp)).activeNavigation = some nav ∧
        nav.arrivalMs = nowMs + resp.duration * 1000 ∧
        nav.distance = toFixed 1 (resp.distance / 1000) ++ " km" ∧
        nav.time = toString (round (resp.duration / 60)) ++ " min") := by
  refine ⟨rfl, ?_⟩
  intro st item cur hcur
  have h : (goToLocation st item nowMs (some resp)).activeNavigation =
      some
        { target :=
            { name := item.name, id := item.id,
              population := item.population, ptype := item.ptype,
              description := item.description, lat := item.lat,
              lng := item.lng }
          distance := toFixed 1 (resp.distance / 1000) ++ " km"
          time := toString (round (resp.duration / 60)) ++ " min"
          arrivalMs := nowMs + resp.duration * 1000
          geometry := resp.coordinates.map fun c => (c.2, c.1) } := by
    simp [goToLocation, hcur, fetchStreetRoute]
  exact ⟨_, h, rfl, rfl, rfl⟩

/-- Witness for C8: distance 1200 m and duration 300 s yield exactly
"1.2 km", "5 min" and an arrival 300 000 ms after the response instant. -/
theorem C8_witness :
    fetchStreetRoute ⟨0, 0⟩ ⟨1, 1⟩ 500 (some ⟨[], 1200, 300⟩) =
      some { points := [], distance := "1.2 km", time := "5 min",
             arrivalMs := 500 + 300 * 1000 } ∧
    (∃ nav, (goToLocation { initialState with currentLocation := some ⟨0, 0⟩ }
        ⟨"Bar", some "i", none, none, none, 3, 4⟩ 500
        (some ⟨[], 1200, 300⟩)).activeNavigation = some nav ∧
      nav.arrivalMs = 500 + 300 * 1000) := by
  constructor
  · rw [(C8_route_formatting ⟨0, 0⟩ ⟨1, 1⟩ 500 ⟨[], 1200, 300⟩).1]
    with_unfolding_all rfl
  · obtain ⟨nav, h1, h2, _, _⟩ :=
      (C8_route_formatting ⟨0, 0⟩ ⟨1, 1⟩ 500 ⟨[], 1200, 300⟩).2
        { initialState with currentLocation := some ⟨0, 0⟩ }
        ⟨"Bar", some "i", none, none, none, 3, 4⟩ ⟨0, 0⟩ rfl
    exact ⟨nav, h1, h2⟩
